import Mathlib

/-!
Shallow embedding of `dataplug/cloudobject.py` (CLOUDLAB-URV/cloud-data-connectors).

The embedding translates the source into pure Lean functions. Mutable object
state becomes explicit state passing on `CloudObjectState`; raised exceptions
become `Except Err` results; calls to the object store are logged as `StoreOp`
values so that theorems can count lookups and uploads. Python truthiness of the
`Optional[Dict]` metadata fields (`None` and the empty dict are both falsy) is
modelled by `truthy`.

Helpers that live outside the single source file (`dataplug.util.head_object`,
`dataplug.util.load_attributes`, `dataplug.util.split_s3_path`,
`dataplug.storage.PureS3Path.from_uri`, `CloudObjectSlice._contextualize`) are
modelled from the spec; their doc comments say so.
-/

instance {ε α : Type} [DecidableEq ε] [DecidableEq α] : DecidableEq (Except ε α) :=
  fun x y =>
    match x, y with
    | .ok a, .ok b =>
      if h : a = b then isTrue (by rw [h])
      else isFalse (fun hc => h (by injection hc))
    | .error a, .error b =>
      if h : a = b then isTrue (by rw [h])
      else isFalse (fun hc => h (by injection hc))
    | .ok _, .error _ => isFalse (fun hc => Except.noConfusion hc)
    | .error _, .ok _ => isFalse (fun hc => Except.noConfusion hc)

namespace Dataplug

/-- Error kinds raised by the source: `KeyError` from `head_object`, the
`MalformedURI` failure of URI parsing, `CorruptAttributes` from attribute
decoding, and the `Exception`s raised in `cloudobject.py` with their
respective messages. -/
inductive Err where
  | keyError
  | malformedURI
  | corruptAttributes
  | alreadyPreprocessed
  | noPreprocessor
  | typeError
  | cannotOverwrite
  | alreadyExists
  | notPreprocessable
deriving DecidableEq

/-- A bucket/key address in the object store. -/
structure Loc where
  bucket : String
  key : String
deriving DecidableEq

/-- A HEAD-response metadata record: a string-keyed mapping of store-reported
fields. Python dict truthiness is emptiness of the list. -/
abbrev Record := List (String × String)

/-- A decoded attributes mapping (the content of `SimpleNamespace(**m)`). -/
abbrev AttrMap := List (String × String)

/-- The encoded payload of a metadata companion object: either a payload that
decodes to an attributes mapping, or one that cannot be parsed. -/
inductive Payload where
  | good (attrs : AttrMap)
  | corrupt
deriving DecidableEq

/-- An object stored in the store: its HEAD metadata record and its payload. -/
structure StoredObj where
  record : Record
  payload : Payload
deriving DecidableEq

/-- The store content: a finite association of locations to stored objects. -/
abbrev Store := List (Loc × StoredObj)

def lookupStore (store : Store) (l : Loc) : Option StoredObj :=
  (store.find? (fun p => p.1 = l)).map (·.2)

/-- Modelled from the spec: the store client capability
`head(bucket, key) -> (fields, payload_bytes) | NotFoundError`
(`dataplug.util.head_object` is not part of the single source file).
Not-found is the `KeyError` that `cloudobject.py` catches. -/
def head_object (store : Store) (l : Loc) : Except Err (Record × Payload) :=
  match lookupStore store l with
  | some o => .ok (o.record, o.payload)
  | none => .error .keyError

/-- Modelled from the spec: `decode(payload) -> mapping; fails with
CorruptAttributes if the payload cannot be parsed`
(`dataplug.util.load_attributes` is not part of the single source file). -/
def load_attributes : Payload → Except Err AttrMap
  | .good m => .ok m
  | .corrupt => .error .corruptAttributes

/-- Kind of a preprocessor class: subclass of `BatchPreprocessor`, subclass of
`MapReducePreprocessor`, or neither. -/
inductive PreprocKind where
  | batch
  | mapReduce
  | other
deriving DecidableEq

/-- `CloudDataType`: an optional bound class handle (`co_class`), an optional
own preprocessor, and an optional parent descriptor (`inherit_from`).
`root` is a descriptor with no parent, `child` one with a parent. -/
inductive CloudDataType where
  | root (co_class : Option Nat) (preproc : Option PreprocKind)
  | child (co_class : Option Nat) (preproc : Option PreprocKind) (parent : CloudDataType)
deriving DecidableEq

def CloudDataType.ownPreprocessor : CloudDataType → Option PreprocKind
  | .root _ p => p
  | .child _ p _ => p

def CloudDataType.parentType : CloudDataType → Option CloudDataType
  | .root _ _ => none
  | .child _ _ t => some t

def CloudDataType.coClass : CloudDataType → Option Nat
  | .root c _ => c
  | .child c _ _ => c

def CloudDataType.withClass : CloudDataType → Nat → CloudDataType
  | .root _ p, c => .root (some c) p
  | .child _ p t, c => .child (some c) p t

/-- `CloudDataType.preprocessor` (property, source lines 35-44): own
preprocessor if set, else delegate to the parent, else raise
`Exception("There is not preprocessor")`. -/
def CloudDataType.preprocessor : CloudDataType → Except Err PreprocKind
  | .root _ (some p) => .ok p
  | .root _ none => .error .noPreprocessor
  | .child _ (some p) _ => .ok p
  | .child _ none t => t.preprocessor

/-- The argument passed to the `CloudDataType` decorator: an opaque handle and
whether `inspect.isclass` holds of it. -/
structure Candidate where
  id : Nat
  isCls : Bool
deriving DecidableEq

/-- `CloudDataType.__call__` (source lines 46-55): raise `TypeError` if the
argument is not a class; bind it if no class is bound yet; otherwise raise
`Exception("Can't overwrite decorator, ...")`. Returns the (possibly updated)
descriptor and the raised error, if any. -/
def CloudDataType.callWith (t : CloudDataType) (c : Candidate) : CloudDataType × Option Err :=
  if !c.isCls then (t, some .typeError)
  else
    match t.coClass with
    | none => (t.withClass c.id, none)
    | some _ => (t, some .cannotOverwrite)

def dropSep : List Char → List Char → Option (List Char)
  | [], l => some l
  | _, [] => none
  | c :: cs, d :: ds => if c = d then dropSep cs ds else none

def splitFirst (sep : List Char) : List Char → Option (List Char × List Char)
  | [] =>
    match dropSep sep [] with
    | some rest => some ([], rest)
    | none => none
  | c :: cs =>
    match dropSep sep (c :: cs) with
    | some rest => some ([], rest)
    | none =>
      match splitFirst sep cs with
      | some (pre, post) => some (c :: pre, post)
      | none => none

/-- Modelled from the spec: `PureS3Path.from_uri` parses a
`scheme://bucket/key` URI — bucket is the first path segment after the
scheme separator, key is the remainder — failing on a malformed string
(`dataplug.storage.PureS3Path` is not part of the single source file). -/
def parse_uri (uri : String) : Option Loc :=
  match splitFirst [':', '/', '/'] uri.data with
  | none => none
  | some (_, rest) =>
    match splitFirst ['/'] rest with
    | none => none
    | some (bucket, key) => some ⟨⟨bucket⟩, ⟨key⟩⟩

/-- Modelled from the spec: `dataplug.util.split_s3_path` splits the same
`scheme://bucket/key` format into bucket and key (not part of the single
source file). -/
def split_s3_path (path : String) : Option Loc :=
  parse_uri path

/-- The fixed literal suffix of the derived metadata bucket
(source line 74: `self._obj_path.bucket + ".meta"`). -/
def metaSuffix : String := ".meta"

/-- The mutable state of a `CloudObject` reference: the two cached metadata
slots, the two addresses, the data type, the store client handle (opaque),
and the decoded attributes record (`SimpleNamespace` content). -/
structure CloudObjectState where
  obj_meta : Option Record
  meta_meta : Option Record
  obj_path : Loc
  meta_path : Loc
  cls : CloudDataType
  s3 : Nat
  obj_attrs : AttrMap
deriving DecidableEq

/-- Python truthiness of an `Optional[Dict]` field: `None` and the empty
dict are falsy, a non-empty dict is truthy. -/
def truthy : Option Record → Bool
  | none => false
  | some r => !r.isEmpty

/-- `CloudObject.__init__` (source lines 59-89): parse the URI, derive the
metadata companion path as `{bucket + ".meta", key}`, both cache slots
unset, empty attributes record. A pure function: no store call is made. -/
def mkCloudObject (dt : CloudDataType) (s3h : Nat) (uri : String) :
    Except Err CloudObjectState :=
  match parse_uri uri with
  | none => .error .malformedURI
  | some p =>
    .ok { obj_meta := none
          meta_meta := none
          obj_path := p
          meta_path := ⟨p.bucket ++ metaSuffix, p.key⟩
          cls := dt
          s3 := s3h
          obj_attrs := [] }

/-- A store operation performed by the reference: a HEAD lookup at a
location, or an upload of a local file to a location. -/
inductive StoreOp where
  | head (l : Loc)
  | upload (file : Nat) (l : Loc)
deriving DecidableEq

def countOp (op : StoreOp) (log : List StoreOp) : Nat :=
  (log.filter (fun o => decide (o = op))).length

/-- Result of a `fetch` call: the post-state, the log of store operations
issued, and either a raised error or the returned value. The returned value
is `none` on the implicit-`None` fall-through return path, and
`some (obj_meta, meta_meta)` on the explicit `return` statement. -/
structure FetchOut where
  state : CloudObjectState
  log : List StoreOp
  result : Except Err (Option (Option Record × Option Record))

/-- The object-slot half of `fetch` (source lines 158-165): if `_obj_meta`
is falsy, HEAD the object path; on success store the record, on `KeyError`
store `None` and re-raise only when `enforce_obj`. -/
def fetchObjSlot (store : Store) (s : CloudObjectState) (enforce_obj : Bool) :
    CloudObjectState × List StoreOp × Option Err :=
  if truthy s.obj_meta then (s, [], none)
  else
    match head_object store s.obj_path with
    | .ok (res, _) => ({ s with obj_meta := some res }, [.head s.obj_path], none)
    | .error e =>
      ({ s with obj_meta := none }, [.head s.obj_path],
        if enforce_obj then some e else none)

/-- The metadata-slot half of `fetch` (source lines 166-175): if `_meta_meta`
is falsy, HEAD the metadata path; on success store the record and then
replace the attributes record with the decoded payload (a decode error
propagates after `_meta_meta` was assigned); on `KeyError` store `None` and
re-raise only when `enforce_meta`; the `return` statement is inside this
`if` block, so a truthy `_meta_meta` falls through returning `None`. -/
def fetchMetaSlot (store : Store) (s : CloudObjectState) (enforce_meta : Bool) :
    CloudObjectState × List StoreOp × Except Err (Option (Option Record × Option Record)) :=
  if truthy s.meta_meta then (s, [], .ok none)
  else
    match head_object store s.meta_path with
    | .ok (res, encoded_attrs) =>
      let s1 := { s with meta_meta := some res }
      match load_attributes encoded_attrs with
      | .ok m =>
        ({ s1 with obj_attrs := m }, [.head s.meta_path], .ok (some (s1.obj_meta, some res)))
      | .error e => (s1, [.head s.meta_path], .error e)
    | .error e =>
      let s1 := { s with meta_meta := none }
      if enforce_meta then (s1, [.head s.meta_path], .error e)
      else (s1, [.head s.meta_path], .ok (some (s1.obj_meta, none)))

/-- `CloudObject.fetch` (source lines 148-175): process the object slot,
then — unless the object slot re-raised — the metadata slot. -/
def fetch (store : Store) (s : CloudObjectState) (enforce_obj enforce_meta : Bool) :
    FetchOut :=
  match fetchObjSlot store s enforce_obj with
  | (s1, log1, some e) => ⟨s1, log1, .error e⟩
  | (s1, log1, none) =>
    match fetchMetaSlot store s1 enforce_meta with
    | (s2, log2, r) => ⟨s2, log1 ++ log2, r⟩

/-- `CloudObject.exists` (source lines 136-139): fetch if `_obj_meta` is
falsy, then return `bool(self._obj_meta)`. An error raised by `fetch`
propagates. -/
def existsCheck (store : Store) (s : CloudObjectState) :
    CloudObjectState × List StoreOp × Except Err Bool :=
  if !truthy s.obj_meta then
    let out := fetch store s false false
    match out.result with
    | .error e => (out.state, out.log, .error e)
    | .ok _ => (out.state, out.log, .ok (truthy out.state.obj_meta))
  else (s, [], .ok (truthy s.obj_meta))

/-- `CloudObject.is_preprocessed` (source lines 141-146): a dedicated HEAD
probe of the metadata companion location, independent of the cached slots;
`True` on success, `False` on `KeyError`. -/
def is_preprocessed (store : Store) (s : CloudObjectState) : Bool × List StoreOp :=
  match head_object store s.meta_path with
  | .ok _ => (true, [.head s.meta_path])
  | .error _ => (false, [.head s.meta_path])

/-- The backend entry point invoked by `preprocess`. -/
inductive BackendCall where
  | preprocess_batch
  | preprocess_map_reduce
deriving DecidableEq

/-- `CloudObject.preprocess` (source lines 177-196): raise
`Exception('Object is already preprocessed')` when `not is_preprocessed()
and not force`; otherwise resolve the type's preprocessor (the resolution
error propagates) and dispatch on its kind, raising
`Exception('This object cannot be preprocessed')` for neither kind. -/
def preprocess (store : Store) (s : CloudObjectState) (force : Bool) :
    Except Err BackendCall :=
  if !(is_preprocessed store s).1 && !force then .error .alreadyPreprocessed
  else
    match s.cls.preprocessor with
    | .error e => .error e
    | .ok .batch => .ok .preprocess_batch
    | .ok .mapReduce => .ok .preprocess_map_reduce
    | .ok .other => .error .notPreprocessable

/-- `CloudObject.new_from_file` (source lines 124-134): construct the
reference, raise `Exception("Object already exists")` when `exists()`
holds, otherwise upload the local file to the split bucket/key and return
the instance. -/
def new_from_file (store : Store) (dt : CloudDataType) (s3h : Nat)
    (file_path : Nat) (cloud_path : String) :
    List StoreOp × Except Err CloudObjectState :=
  match mkCloudObject dt s3h cloud_path with
  | .error e => ([], .error e)
  | .ok co =>
    match existsCheck store co with
    | (_, log1, .error e) => (log1, .error e)
    | (_, log1, .ok true) => (log1, .error .alreadyExists)
    | (s1, log1, .ok false) =>
      match split_s3_path cloud_path with
      | none => (log1, .error .malformedURI)
      | some l => (log1 ++ [.upload file_path l], .ok s1)

/-- A partition slice: an opaque descriptor and the back-reference to the
owning cloud object reference set by `_contextualize`. -/
structure CloudObjectSlice where
  descriptor : Nat
  owner : Option CloudObjectState
deriving DecidableEq

/-- Modelled from the spec: `CloudObjectSlice._contextualize(self)` binds
the slice to its owning reference (`dataplug.dataslice` is not part of the
single source file). -/
def contextualize (s : CloudObjectSlice) (co : CloudObjectState) : CloudObjectSlice :=
  { s with owner := some co }

/-- `CloudObject.partition` (source lines 207-216): run the strategy on the
reference, contextualize each produced slice to the reference, return the
slices. -/
def partition (co : CloudObjectState) (strategy : CloudObjectState → List CloudObjectSlice) :
    List CloudObjectSlice :=
  let slices := strategy co
  slices.map (fun s => contextualize s co)

/-- Well-formed store: every stored object's HEAD record is non-empty (a
real HEAD response carries at least the size field) and its payload
decodes. -/
def storeWF (store : Store) : Bool :=
  store.all (fun p =>
    !p.2.record.isEmpty &&
      match p.2.payload with
      | .good _ => true
      | .corrupt => false)

/-- A data type whose own preprocessor is a batch preprocessor. -/
def exType : CloudDataType := .root none (some .batch)

/-- A freshly constructed reference for `s3://b/k`: both slots unset,
empty attributes record. -/
def exFresh : CloudObjectState :=
  { obj_meta := none
    meta_meta := none
    obj_path := ⟨"b", "k"⟩
    meta_path := ⟨"b.meta", "k"⟩
    cls := exType
    s3 := 0
    obj_attrs := [] }

/-- A reference whose two slots are both already resolved present. -/
def exBothCached : CloudObjectState :=
  { exFresh with obj_meta := some [("ContentLength", "1")], meta_meta := some [("a", "b")] }

/-- A reference whose object slot is unresolved but whose companion slot is
already resolved present. -/
def exMetaCached : CloudObjectState :=
  { exFresh with meta_meta := some [("a", "b")] }

/-- A store holding only the metadata companion of `exFresh`. -/
def exStoreMeta : Store :=
  [(⟨"b.meta", "k"⟩, ⟨[("ContentLength", "10")], .good [("n", "v")]⟩)]

/-- A store holding both the primary object and the companion of `exFresh`. -/
def exStoreFull : Store :=
  [(⟨"b", "k"⟩, ⟨[("ContentLength", "5")], .good []⟩),
   (⟨"b.meta", "k"⟩, ⟨[("ContentLength", "10")], .good [("n", "v")]⟩)]

/-- A store whose companion object for `exFresh` has an unparseable payload. -/
def exStoreCorrupt : Store :=
  [(⟨"b.meta", "k"⟩, ⟨[("ContentLength", "10")], .corrupt⟩)]

/-- A store with an object occupying `s3://bkt/f.bin`. -/
def exStoreOcc : Store :=
  [(⟨"bkt", "f.bin"⟩, ⟨[("ContentLength", "5")], .good []⟩)]

/-- A partitioning strategy producing three slices, none yet contextualized. -/
def exStrategy : CloudObjectState → List CloudObjectSlice :=
  fun _ => [⟨1, none⟩, ⟨2, none⟩, ⟨3, none⟩]

/-- The reference that `__init__` builds for `store://bucket1/data.csv`. -/
def exCo9 : CloudObjectState :=
  { obj_meta := none
    meta_meta := none
    obj_path := ⟨"bucket1", "data.csv"⟩
    meta_path := ⟨"bucket1.meta", "data.csv"⟩
    cls := exType
    s3 := 0
    obj_attrs := [] }

/-- C1: the claim says `preprocess(backend, force=false)` fails with
`AlreadyPreprocessed` when `is_preprocessed()` is true and proceeds to
dispatch when `is_preprocessed()` is false. The code does the exact
opposite: the guard `if not self.is_preprocessed() and not force` raises
the error — whose own message says "already preprocessed" — precisely when
the object is NOT preprocessed, and dispatches when it IS preprocessed.
This theorem evaluates the embedded code at both inputs. -/
theorem preprocess_guard_polarity_inverted :
    (is_preprocessed [] exFresh).1 = false ∧
      preprocess [] exFresh false = .error .alreadyPreprocessed ∧
      (is_preprocessed exStoreMeta exFresh).1 = true ∧
      preprocess exStoreMeta exFresh false = .ok .preprocess_batch := by
  decide

/-- C3: the claim says a non-raising `fetch` returns the pair of metadata
records. On a reference whose companion slot is already resolved present,
the source's `return` statement (nested inside the companion-slot `if`) is
unreachable: `fetch` issues no lookup, raises nothing, and yields no value
(the implicit `None`), contradicting the claim and the docstring. -/
theorem fetch_return_gap_yields_no_value :
    (fetch [] exBothCached false false).result = .ok none ∧
      (fetch [] exBothCached false false).log = [] ∧
      (fetch [] exBothCached false false).state = exBothCached := by
  decide

/-- C4: preprocessor resolution returns the type's own preprocessor when
one is set; otherwise, when a parent is set, it returns the parent's
resolved preprocessor; and when neither is set it fails with the
"no preprocessor configured" error. -/
theorem preprocessor_resolution (t : CloudDataType) :
    (∀ p, t.ownPreprocessor = some p → t.preprocessor = .ok p) ∧
      (t.ownPreprocessor = none → ∀ par, t.parentType = some par →
        t.preprocessor = par.preprocessor) ∧
      (t.ownPreprocessor = none → t.parentType = none →
        t.preprocessor = .error .noPreprocessor) := by
  cases t with
  | root c p =>
    cases p <;>
      simp [CloudDataType.ownPreprocessor, CloudDataType.parentType,
        CloudDataType.preprocessor]
  | child c p par =>
    cases p <;>
      simp [CloudDataType.ownPreprocessor, CloudDataType.parentType,
        CloudDataType.preprocessor]

/-- Witness for C4 at concrete types: own preprocessor wins, a type without
one delegates to its parent, and a type with neither fails. -/
theorem preprocessor_resolution_witness :
    (CloudDataType.root none (some .batch)).preprocessor = .ok .batch ∧
      (CloudDataType.child none none (.root none (some .mapReduce))).preprocessor =
        (CloudDataType.root none (some .mapReduce)).preprocessor ∧
      (CloudDataType.root none none).preprocessor = .error .noPreprocessor :=
  ⟨(preprocessor_resolution (.root none (some .batch))).1 .batch rfl,
   (preprocessor_resolution (.child none none (.root none (some .mapReduce)))).2.1 rfl
     (.root none (some .mapReduce)) rfl,
   (preprocessor_resolution (.root none none)).2.2 rfl rfl⟩

/-- C5: binding a class to a `CloudDataType` is single-assignment: with no
class bound yet, binding a class succeeds and records it; with a class
already bound, the call fails with the overwrite error and the descriptor
— including the originally bound class — is unchanged. -/
theorem class_binding_single_assignment (t : CloudDataType) (c : Candidate)
    (hc : c.isCls = true) :
    (t.coClass = none →
      (t.callWith c).2 = none ∧ (t.callWith c).1.coClass = some c.id) ∧
      (∀ b, t.coClass = some b →
        (t.callWith c).2 = some .cannotOverwrite ∧ (t.callWith c).1 = t) := by
  cases t with
  | root co p =>
    cases co <;>
      simp [CloudDataType.callWith, hc, CloudDataType.coClass, CloudDataType.withClass]
  | child co p par =>
    cases co <;>
      simp [CloudDataType.callWith, hc, CloudDataType.coClass, CloudDataType.withClass]

/-- Witness for C5: binding class 5 to an unbound descriptor records it;
binding it to a descriptor already holding class 3 fails and leaves the
descriptor unchanged. -/
theorem class_binding_single_assignment_witness :
    ((CloudDataType.root none none).callWith ⟨5, true⟩).1.coClass = some 5 ∧
      ((CloudDataType.root (some 3) none).callWith ⟨5, true⟩).2 =
        some .cannotOverwrite ∧
      ((CloudDataType.root (some 3) none).callWith ⟨5, true⟩).1 =
        CloudDataType.root (some 3) none :=
  ⟨((class_binding_single_assignment (.root none none) ⟨5, true⟩ rfl).1 rfl).2,
   ((class_binding_single_assignment (.root (some 3) none) ⟨5, true⟩ rfl).2 3 rfl).1,
   ((class_binding_single_assignment (.root (some 3) none) ⟨5, true⟩ rfl).2 3 rfl).2⟩

/-- C7: `partition` returns exactly the slices the strategy produced — same
count, same relative order (position by position) — and every returned
slice has been contextualized (bound) to the invoking reference. -/
theorem partition_contextualizes_in_order (co : CloudObjectState)
    (strategy : CloudObjectState → List CloudObjectSlice) :
    (partition co strategy).length = (strategy co).length ∧
      (∀ i : Nat, (partition co strategy)[i]? =
        ((strategy co)[i]?).map (fun s => contextualize s co)) ∧
      ∀ s, s ∈ partition co strategy → s.owner = some co := by
  refine ⟨List.length_map _ _, fun i => List.getElem?_map .., fun s hs => ?_⟩
  unfold partition at hs
  rcases List.mem_map.mp hs with ⟨a, -, rfl⟩
  rfl

/-- Witness for C7, the spec's 3-slice scenario: a strategy producing three
slices yields three slices, the slice at index 1 is the contextualized
second slice, and a returned slice's owner is the invoking reference. -/
theorem partition_contextualizes_in_order_witness :
    (partition exFresh exStrategy).length = 3 ∧
      (partition exFresh exStrategy)[1]? = some ⟨2, some exFresh⟩ ∧
      (⟨2, some exFresh⟩ : CloudObjectSlice).owner = some exFresh :=
  ⟨(partition_contextualizes_in_order exFresh exStrategy).1.trans (by decide),
   ((partition_contextualizes_in_order exFresh exStrategy).2.1 1).trans (by decide),
   (partition_contextualizes_in_order exFresh exStrategy).2.2 ⟨2, some exFresh⟩
     (by decide)⟩

/-- The object-slot half of `fetch` only ever rewrites `obj_meta`. -/
theorem fetchObjSlot_state (store : Store) (s : CloudObjectState) (eo : Bool) :
    ∃ x, (fetchObjSlot store s eo).1 = { s with obj_meta := x } := by
  unfold fetchObjSlot
  split
  · exact ⟨s.obj_meta, rfl⟩
  · split
    · exact ⟨_, rfl⟩
    · exact ⟨none, rfl⟩

/-- The object-slot half of `fetch` logs either nothing or one HEAD of the
object path. -/
theorem fetchObjSlot_log (store : Store) (s : CloudObjectState) (eo : Bool) :
    (fetchObjSlot store s eo).2.1 = [] ∨
      (fetchObjSlot store s eo).2.1 = [.head s.obj_path] := by
  unfold fetchObjSlot
  split
  · exact .inl rfl
  · split
    · exact .inr rfl
    · exact .inr rfl

/-- With `enforce_obj = false` the object-slot half never re-raises. -/
theorem fetchObjSlot_no_enforce (store : Store) (s : CloudObjectState) :
    (fetchObjSlot store s false).2.2 = none := by
  unfold fetchObjSlot
  split
  · rfl
  · split
    · rfl
    · rfl

/-- The metadata-slot half of `fetch` rewrites only `meta_meta` and
`obj_attrs`, and the attributes record is either left at its prior value or
wholly replaced by the mapping decoded from the stored companion payload. -/
theorem fetchMetaSlot_state (store : Store) (s : CloudObjectState) (em : Bool) :
    ∃ y a, (fetchMetaSlot store s em).1 = { s with meta_meta := y, obj_attrs := a } ∧
      (a = s.obj_attrs ∨
        ∃ r m, lookupStore store s.meta_path = some ⟨r, .good m⟩ ∧ a = m) := by
  by_cases ht : truthy s.meta_meta = true
  · exact ⟨s.meta_meta, s.obj_attrs, by simp [fetchMetaSlot, ht], .inl rfl⟩
  · rw [Bool.not_eq_true] at ht
    cases hl : lookupStore store s.meta_path with
    | none =>
      refine ⟨none, s.obj_attrs, ?_, .inl rfl⟩
      cases em <;> simp [fetchMetaSlot, head_object, hl, ht]
    | some o =>
      cases hp : o.payload with
      | good m =>
        refine ⟨some o.record, m, ?_, .inr ⟨o.record, m, ?_, rfl⟩⟩
        · simp [fetchMetaSlot, head_object, hl, ht, hp, load_attributes]
        · rw [← hp]
      | corrupt =>
        refine ⟨some o.record, s.obj_attrs, ?_, .inl rfl⟩
        simp [fetchMetaSlot, head_object, hl, ht, hp, load_attributes]

/-- The metadata-slot half of `fetch` logs either nothing or one HEAD of
the metadata path. -/
theorem fetchMetaSlot_log (store : Store) (s : CloudObjectState) (em : Bool) :
    (fetchMetaSlot store s em).2.1 = [] ∨
      (fetchMetaSlot store s em).2.1 = [.head s.meta_path] := by
  unfold fetchMetaSlot
  split
  · exact .inl rfl
  · split
    · split
      · exact .inr rfl
      · exact .inr rfl
    · split
      · exact .inr rfl
      · exact .inr rfl

/-- Every `fetch` execution only rewrites the two cache slots and the
attributes record; the attributes record is either left at its prior value
or wholly replaced by the mapping decoded from the stored companion
payload. -/
theorem fetch_state (store : Store) (s : CloudObjectState) (eo em : Bool) :
    ∃ x y a, (fetch store s eo em).state =
        { s with obj_meta := x, meta_meta := y, obj_attrs := a } ∧
      (a = s.obj_attrs ∨
        ∃ r m, lookupStore store s.meta_path = some ⟨r, .good m⟩ ∧ a = m) := by
  obtain ⟨x, hx⟩ := fetchObjSlot_state store s eo
  rcases hfo : fetchObjSlot store s eo with ⟨s1, log1, oe⟩
  rw [hfo] at hx
  simp only at hx
  subst hx
  cases oe with
  | some e =>
    exact ⟨x, s.meta_meta, s.obj_attrs, by simp [fetch, hfo], .inl rfl⟩
  | none =>
    obtain ⟨y, a, hst, hc⟩ := fetchMetaSlot_state store { s with obj_meta := x } em
    rcases hfm : fetchMetaSlot store { s with obj_meta := x } em with ⟨s2, log2, r⟩
    rw [hfm] at hst
    simp only at hst
    subst hst
    refine ⟨x, y, a, by simp [fetch, hfo, hfm], ?_⟩
    simpa using hc

/-- C8: the attributes record is never partially populated: every `fetch`
execution either leaves it exactly at its prior value (in particular on a
companion decode failure or an absent companion) or replaces it wholesale
with the mapping decoded from the stored companion payload. -/
theorem fetch_attrs_atomic (store : Store) (s : CloudObjectState) (eo em : Bool) :
    (fetch store s eo em).state.obj_attrs = s.obj_attrs ∨
      ∃ r m, lookupStore store s.meta_path = some ⟨r, .good m⟩ ∧
        (fetch store s eo em).state.obj_attrs = m := by
  obtain ⟨x, y, a, hst, hc⟩ := fetch_state store s eo em
  rw [hst]
  simpa using hc

theorem countOp_nil (op : StoreOp) : countOp op [] = 0 := rfl

theorem countOp_singleton (op a : StoreOp) :
    countOp op [a] = if a = op then 1 else 0 := by
  by_cases h : a = op <;> simp [countOp, List.filter, h]

theorem countOp_append (op : StoreOp) (l1 l2 : List StoreOp) :
    countOp op (l1 ++ l2) = countOp op l1 + countOp op l2 := by
  simp [countOp, List.filter_append]

/-- The metadata-slot half of `fetch` issues no lookup when the slot is
already truthy. -/
theorem fetchMetaSlot_skip (store : Store) (s : CloudObjectState) (em : Bool)
    (ht : truthy s.meta_meta = true) :
    fetchMetaSlot store s em = (s, [], .ok none) := by
  simp [fetchMetaSlot, ht]

/-- C2 (amended): a slot resolved present — a truthy cached record — is
never looked up again by `fetch`: no HEAD of the object path is issued when
the object slot is truthy, and none of the metadata path when the
companion slot is truthy. (A slot resolved absent is stored as `None`,
indistinguishable from unresolved, and is re-probed by every later
`fetch`; `fetch_relookups_absent_slot` shows the claim fails for it.) -/
theorem fetch_no_relookup_of_present_slot (store : Store) (s : CloudObjectState)
    (eo em : Bool) (hne : s.obj_path ≠ s.meta_path) :
    (truthy s.obj_meta = true →
      countOp (.head s.obj_path) (fetch store s eo em).log = 0) ∧
      (truthy s.meta_meta = true →
        countOp (.head s.meta_path) (fetch store s eo em).log = 0) := by
  have hno1 : StoreOp.head s.meta_path ≠ StoreOp.head s.obj_path := by
    intro h
    injection h with h'
    exact hne h'.symm
  have hno2 : StoreOp.head s.obj_path ≠ StoreOp.head s.meta_path := by
    intro h
    injection h with h'
    exact hne h'
  constructor
  · intro ho
    have hfo : fetchObjSlot store s eo = (s, [], none) := by
      simp [fetchObjSlot, ho]
    rcases hfm : fetchMetaSlot store s em with ⟨s2, log2, r⟩
    have hlog : (fetch store s eo em).log = log2 := by
      simp [fetch, hfo, hfm]
    rw [hlog]
    rcases fetchMetaSlot_log store s em with h2 | h2 <;> rw [hfm] at h2 <;>
      simp only at h2 <;> subst h2
    · rfl
    · rw [countOp_singleton, if_neg hno1]
  · intro hm
    obtain ⟨x, hx⟩ := fetchObjSlot_state store s eo
    rcases hfo : fetchObjSlot store s eo with ⟨s1, log1, oe⟩
    rw [hfo] at hx
    simp only at hx
    subst hx
    have hlog1 : countOp (.head s.meta_path) log1 = 0 := by
      rcases fetchObjSlot_log store s eo with h1 | h1 <;> rw [hfo] at h1 <;>
        simp only at h1 <;> subst h1
      · rfl
      · rw [countOp_singleton, if_neg hno2]
    cases oe with
    | some e =>
      have hlog : (fetch store s eo em).log = log1 := by
        simp [fetch, hfo]
      rw [hlog, hlog1]
    | none =>
      have hm1 : truthy ({ s with obj_meta := x } : CloudObjectState).meta_meta = true := hm
      have hfm := fetchMetaSlot_skip store { s with obj_meta := x } em hm1
      have hlog : (fetch store s eo em).log = log1 ++ [] := by
        simp [fetch, hfo, hfm]
      rw [hlog, countOp_append, hlog1]
      rfl

/-- Witness for the amended C2 at a reference whose two slots are both
resolved present: a second `fetch` issues no lookup for either slot. -/
theorem fetch_no_relookup_witness :
    countOp (.head exBothCached.obj_path) (fetch [] exBothCached false false).log = 0 ∧
      countOp (.head exBothCached.meta_path) (fetch [] exBothCached false false).log = 0 :=
  ⟨(fetch_no_relookup_of_present_slot [] exBothCached false false (by decide)).1 (by decide),
   (fetch_no_relookup_of_present_slot [] exBothCached false false (by decide)).2 (by decide)⟩

/-- Counterexample to C2 as stated: on a store where both objects are
absent, the first `fetch` resolves both slots to absent (the object slot is
`None` afterwards and the lookups were issued), yet the second `fetch`
looks both slots up again — two HEAD lookups for the object slot in total,
not at most one. -/
theorem fetch_relookups_absent_slot :
    (fetch [] exFresh false false).state.obj_meta = none ∧
      (fetch [] exFresh false false).log =
        [.head exFresh.obj_path, .head exFresh.meta_path] ∧
      countOp (.head exFresh.obj_path)
        ((fetch [] exFresh false false).log ++
          (fetch [] (fetch [] exFresh false false).state false false).log) = 2 ∧
      ¬ countOp (.head exFresh.obj_path)
          ((fetch [] exFresh false false).log ++
            (fetch [] (fetch [] exFresh false false).state false false).log) ≤ 1 := by
  decide

/-- C9: the reference constructed from a URI has the parsed primary
location, and its derived metadata companion location is the primary bucket
extended by the fixed literal suffix `".meta"` with the identical key; the
constructor is a pure function issuing no store operation. -/
theorem derived_metadata_location (dt : CloudDataType) (s3h : Nat) (uri : String)
    (p : Loc) (co : CloudObjectState) (hp : parse_uri uri = some p)
    (hco : mkCloudObject dt s3h uri = .ok co) :
    co.obj_path = p ∧ co.meta_path = ⟨p.bucket ++ ".meta", p.key⟩ := by
  unfold mkCloudObject at hco
  rw [hp] at hco
  injection hco with h
  rw [← h]
  exact ⟨rfl, rfl⟩

/-- Witness for C9, the spec's scenario: `store://bucket1/data.csv` parses
to primary `{bucket1, data.csv}` and the constructed reference's metadata
location is `{bucket1.meta, data.csv}`. -/
theorem derived_metadata_location_witness :
    exCo9.obj_path = ⟨"bucket1", "data.csv"⟩ ∧
      exCo9.meta_path = ⟨"bucket1" ++ ".meta", "data.csv"⟩ :=
  derived_metadata_location exType 0 "store://bucket1/data.csv"
    ⟨"bucket1", "data.csv"⟩ exCo9 (by decide) (by decide)

/-- The metadata-slot half of `fetch` always issues exactly one HEAD of the
metadata path when the cached slot is falsy. -/
theorem fetchMetaSlot_log_of_false (store : Store) (s : CloudObjectState) (em : Bool)
    (hm : truthy s.meta_meta = false) :
    (fetchMetaSlot store s em).2.1 = [.head s.meta_path] := by
  cases hl : lookupStore store s.meta_path with
  | none => cases em <;> simp [fetchMetaSlot, head_object, hl, hm]
  | some o =>
    cases hp : o.payload with
    | good m => simp [fetchMetaSlot, head_object, hl, hm, hp, load_attributes]
    | corrupt => simp [fetchMetaSlot, head_object, hl, hm, hp, load_attributes]

/-- Full evaluation of the metadata-slot half when the slot is falsy and
the companion is present with a decodable payload. -/
theorem fetchMetaSlot_good (store : Store) (s : CloudObjectState) (em : Bool)
    (r : Record) (m : AttrMap) (hm : truthy s.meta_meta = false)
    (hl : lookupStore store s.meta_path = some ⟨r, .good m⟩) :
    fetchMetaSlot store s em =
      ({ s with meta_meta := some r, obj_attrs := m }, [.head s.meta_path],
        .ok (some (s.obj_meta, some r))) := by
  simp [fetchMetaSlot, head_object, hl, hm, load_attributes]

/-- When the object slot is falsy, `exists()` returns the post-state and
log of the `fetch` call it delegates to. -/
theorem existsCheck_passthrough (store : Store) (s : CloudObjectState)
    (ho : truthy s.obj_meta = false) :
    (existsCheck store s).1 = (fetch store s false false).state ∧
      (existsCheck store s).2.1 = (fetch store s false false).log := by
  cases hr : (fetch store s false false).result with
  | error e => simp [existsCheck, ho, hr]
  | ok v => simp [existsCheck, ho, hr]

/-- C10 (amended): calling `exists()` on a reference whose object slot and
companion slot are both unresolved (falsy) also issues a HEAD probe for the
metadata companion object; when the companion is present with a decodable
payload, it populates the companion slot with the returned record and
replaces the attributes record with the decoded mapping; the location
fields, the data type and the store handle are unchanged. -/
theorem exists_probes_companion (store : Store) (s : CloudObjectState)
    (ho : truthy s.obj_meta = false) (hm : truthy s.meta_meta = false) :
    StoreOp.head s.meta_path ∈ (existsCheck store s).2.1 ∧
      (∀ r m, lookupStore store s.meta_path = some ⟨r, .good m⟩ →
        (existsCheck store s).1.meta_meta = some r ∧
          (existsCheck store s).1.obj_attrs = m) ∧
      (existsCheck store s).1.obj_path = s.obj_path ∧
      (existsCheck store s).1.meta_path = s.meta_path ∧
      (existsCheck store s).1.cls = s.cls ∧
      (existsCheck store s).1.s3 = s.s3 := by
  obtain ⟨hps, hpl⟩ := existsCheck_passthrough store s ho
  rw [hps, hpl]
  obtain ⟨x, hx⟩ := fetchObjSlot_state store s false
  have hoe := fetchObjSlot_no_enforce store s
  rcases hfo : fetchObjSlot store s false with ⟨s1, log1, oe⟩
  rw [hfo] at hx hoe
  simp only at hx hoe
  subst hx
  subst hoe
  have hm1 : truthy ({ s with obj_meta := x } : CloudObjectState).meta_meta = false := hm
  refine ⟨?_, ?_, ?_⟩
  · rcases hfm : fetchMetaSlot store { s with obj_meta := x } false with ⟨s2, log2, r⟩
    have hl2 := fetchMetaSlot_log_of_false store { s with obj_meta := x } false hm1
    rw [hfm] at hl2
    simp only at hl2
    subst hl2
    have hlog : (fetch store s false false).log = log1 ++ [StoreOp.head s.meta_path] := by
      simp [fetch, hfo, hfm]
    rw [hlog]
    exact List.mem_append_right log1 (List.mem_singleton.mpr rfl)
  · intro r m hl
    have hfm := fetchMetaSlot_good store { s with obj_meta := x } false r m hm1 hl
    have hst : (fetch store s false false).state =
        { s with obj_meta := x, meta_meta := some r, obj_attrs := m } := by
      simp [fetch, hfo, hfm]
    rw [hst]
    exact ⟨rfl, rfl⟩
  · obtain ⟨x', y, a, hst, -⟩ := fetch_state store s false false
    rw [hst]
    exact ⟨rfl, rfl, rfl, rfl⟩

/-- Witness for the amended C10: on a fresh reference with both slots
unresolved and a store holding the object and a decodable companion,
`exists()` probes the companion, populates the companion slot, replaces the
attributes record, and leaves the store handle unchanged. -/
theorem exists_probes_companion_witness :
    StoreOp.head exFresh.meta_path ∈ (existsCheck exStoreFull exFresh).2.1 ∧
      (existsCheck exStoreFull exFresh).1.meta_meta = some [("ContentLength", "10")] ∧
      (existsCheck exStoreFull exFresh).1.obj_attrs = [("n", "v")] ∧
      (existsCheck exStoreFull exFresh).1.s3 = exFresh.s3 :=
  ⟨(exists_probes_companion exStoreFull exFresh rfl rfl).1,
   ((exists_probes_companion exStoreFull exFresh rfl rfl).2.1
     [("ContentLength", "10")] [("n", "v")] (by decide)).1,
   ((exists_probes_companion exStoreFull exFresh rfl rfl).2.1
     [("ContentLength", "10")] [("n", "v")] (by decide)).2,
   (exists_probes_companion exStoreFull exFresh rfl rfl).2.2.2.2.2⟩

/-- Counterexample to C10 as stated. First part: on a reference whose
object slot is unresolved but whose companion slot was already resolved
present, `exists()` probes only the object path — no HEAD of the companion
is issued and the attributes record is untouched, although the companion is
present in the store. Second part: when the present companion's payload
does not decode, `exists()` raises `CorruptAttributes` and the attributes
record is not replaced. -/
theorem exists_companion_probe_counterexample :
    exMetaCached.obj_meta = none ∧
      (existsCheck exStoreMeta exMetaCached).2.1 = [.head exMetaCached.obj_path] ∧
      StoreOp.head exMetaCached.meta_path ∉ (existsCheck exStoreMeta exMetaCached).2.1 ∧
      (existsCheck exStoreMeta exMetaCached).1.obj_attrs = exMetaCached.obj_attrs ∧
      (existsCheck exStoreCorrupt exFresh).2.2 = .error .corruptAttributes ∧
      (existsCheck exStoreCorrupt exFresh).1.obj_attrs = exFresh.obj_attrs := by
  decide

/-- A present entry of a well-formed store has a non-empty HEAD record and
a decodable payload. -/
theorem storeWF_lookup (store : Store) (l : Loc) (o : StoredObj)
    (hWF : storeWF store = true) (h : lookupStore store l = some o) :
    o.record.isEmpty = false ∧ ∃ m, o.payload = .good m := by
  unfold lookupStore at h
  cases hf : store.find? (fun p => p.1 = l) with
  | none => rw [hf] at h; cases h
  | some pr =>
    rw [hf] at h
    simp only [Option.map_some', Option.some.injEq] at h
    subst h
    have hmem := List.mem_of_find?_eq_some hf
    unfold storeWF at hWF
    have hall := List.all_eq_true.mp hWF pr hmem
    simp only [Bool.and_eq_true, Bool.not_eq_true'] at hall
    obtain ⟨h1, h2⟩ := hall
    refine ⟨h1, ?_⟩
    cases hpay : pr.2.payload with
    | good m => exact ⟨m, rfl⟩
    | corrupt =>
      rw [hpay] at h2
      exact absurd h2 (by decide)

/-- Over a well-formed store, `exists()` on a freshly constructed reference
(both slots `None`) never raises: it returns exactly whether the primary
object is present, its log holds only HEAD lookups, and the returned
state keeps the object path. -/
theorem existsCheck_fresh (store : Store) (s : CloudObjectState)
    (hWF : storeWF store = true) (ho : s.obj_meta = none) (hm : s.meta_meta = none) :
    ∃ s' log,
      existsCheck store s = (s', log, .ok (lookupStore store s.obj_path).isSome) ∧
        s'.obj_path = s.obj_path ∧ ∀ f l, StoreOp.upload f l ∉ log := by
  cases hlo : lookupStore store s.obj_path with
  | some o =>
    obtain ⟨hrec, m, hpay⟩ := storeWF_lookup store s.obj_path o hWF hlo
    cases hlm : lookupStore store s.meta_path with
    | some o2 =>
      obtain ⟨hrec2, m2, hpay2⟩ := storeWF_lookup store s.meta_path o2 hWF hlm
      have hE : existsCheck store s =
          ({ s with obj_meta := some o.record, meta_meta := some o2.record, obj_attrs := m2 },
            [.head s.obj_path, .head s.meta_path], .ok true) := by
        simp [existsCheck, fetch, fetchObjSlot, fetchMetaSlot, head_object,
          load_attributes, hlo, hlm, ho, hm, hpay2, truthy, hrec]
      exact ⟨_, _, hE, rfl, by intro f l hmem; simp at hmem⟩
    | none =>
      have hE : existsCheck store s =
          ({ s with obj_meta := some o.record, meta_meta := none },
            [.head s.obj_path, .head s.meta_path], .ok true) := by
        simp [existsCheck, fetch, fetchObjSlot, fetchMetaSlot, head_object,
          load_attributes, hlo, hlm, ho, hm, truthy, hrec]
      exact ⟨_, _, hE, rfl, by intro f l hmem; simp at hmem⟩
  | none =>
    cases hlm : lookupStore store s.meta_path with
    | some o2 =>
      obtain ⟨hrec2, m2, hpay2⟩ := storeWF_lookup store s.meta_path o2 hWF hlm
      have hE : existsCheck store s =
          ({ s with obj_meta := none, meta_meta := some o2.record, obj_attrs := m2 },
            [.head s.obj_path, .head s.meta_path], .ok false) := by
        simp [existsCheck, fetch, fetchObjSlot, fetchMetaSlot, head_object,
          load_attributes, hlo, hlm, ho, hm, hpay2, truthy]
      exact ⟨_, _, hE, rfl, by intro f l hmem; simp at hmem⟩
    | none =>
      have hE : existsCheck store s =
          ({ s with obj_meta := none, meta_meta := none },
            [.head s.obj_path, .head s.meta_path], .ok false) := by
        simp [existsCheck, fetch, fetchObjSlot, fetchMetaSlot, head_object,
          load_attributes, hlo, hlm, ho, hm, truthy]
      exact ⟨_, _, hE, rfl, by intro f l hmem; simp at hmem⟩

/-- C6: over a well-formed store, `new_from_file` at a location already
occupied by an object fails with the AlreadyExists error and performs no
upload; at an unoccupied location it uploads the local file to exactly
that location (after its HEAD probes) and returns a reference wrapping
the location. -/
theorem new_from_file_occupancy (store : Store) (dt : CloudDataType)
    (s3h f : Nat) (uri : String) (p : Loc) (hWF : storeWF store = true)
    (hp : parse_uri uri = some p) :
    ((lookupStore store p).isSome = true →
      (new_from_file store dt s3h f uri).2 = .error .alreadyExists ∧
        ∀ g l, StoreOp.upload g l ∉ (new_from_file store dt s3h f uri).1) ∧
      ((lookupStore store p).isSome = false →
        ∃ pre s1, new_from_file store dt s3h f uri = (pre ++ [.upload f p], .ok s1) ∧
          s1.obj_path = p ∧ ∀ g l, StoreOp.upload g l ∉ pre) := by
  have hmk : mkCloudObject dt s3h uri = .ok
      { obj_meta := none, meta_meta := none, obj_path := p,
        meta_path := ⟨p.bucket ++ metaSuffix, p.key⟩, cls := dt, s3 := s3h,
        obj_attrs := [] } := by
    simp [mkCloudObject, hp]
  obtain ⟨s', log, hE, hop, hup⟩ := existsCheck_fresh store
    { obj_meta := none, meta_meta := none, obj_path := p,
      meta_path := ⟨p.bucket ++ metaSuffix, p.key⟩, cls := dt, s3 := s3h,
      obj_attrs := [] } hWF rfl rfl
  simp only at hE hop
  constructor
  · intro hocc
    rw [hocc] at hE
    have hnf : new_from_file store dt s3h f uri = (log, .error .alreadyExists) := by
      simp [new_from_file, hmk, hE]
    rw [hnf]
    exact ⟨rfl, fun g l => hup g l⟩
  · intro habs
    rw [habs] at hE
    have hnf : new_from_file store dt s3h f uri =
        (log ++ [.upload f p], .ok s') := by
      simp [new_from_file, hmk, hE, split_s3_path, hp]
    exact ⟨log, s', hnf, hop, hup⟩

/-- Witness for C6: against a store occupying `s3://bkt/f.bin`,
`new_from_file` fails with AlreadyExists; against the empty store it
uploads the file to `{bkt, f.bin}` after two HEAD probes and returns the
wrapping reference. -/
theorem new_from_file_occupancy_witness :
    (new_from_file exStoreOcc exType 0 7 "s3://bkt/f.bin").2 = .error .alreadyExists ∧
      ∃ pre s1, new_from_file [] exType 0 7 "s3://bkt/f.bin" =
        (pre ++ [.upload 7 ⟨"bkt", "f.bin"⟩], .ok s1) ∧
        s1.obj_path = ⟨"bkt", "f.bin"⟩ :=
  ⟨((new_from_file_occupancy exStoreOcc exType 0 7 "s3://bkt/f.bin"
      ⟨"bkt", "f.bin"⟩ (by decide) (by decide)).1 (by decide)).1,
   by
    obtain ⟨pre, s1, h1, h2, -⟩ :=
      (new_from_file_occupancy [] exType 0 7 "s3://bkt/f.bin"
        ⟨"bkt", "f.bin"⟩ rfl (by decide)).2 (by decide)
    exact ⟨pre, s1, h1, h2⟩⟩

end Dataplug
